import Mathlib

/-!
Verification development for the git-auto repository synchronization engine.

The Python sources (src/gitsync.py, the CLI pass, and src/gitsync_gui.py, the
GUI pass) are shallowly embedded below.  Pure string-classification helpers
become Lean functions on strings; every subprocess interaction (`run_git`) is
modelled by an oracle environment record that supplies the (success flag,
combined output) result of each call site, and each modelled routine returns,
besides its result, the list of git operations it performed (its trace) and
the final persisted remote URL, so that temporal/safety properties can be
stated about what was and was not executed.
-/

/-- Result of one `run_git` invocation: success flag plus combined
stdout+stderr text, exactly as `run_git` returns it. -/
structure GitRes where
  ok : Bool
  out : String
  deriving DecidableEq, Repr

/-- One observable git operation performed by the engine.  `setUrl` records the
URL written into the repository's origin remote (`git remote set-url`). -/
inductive GitEvent where
  | setUrl (url : String)
  | pull
  | fetch
  | abortMerge
  | statusQuery
  | revParse
  | revList
  | hardReset
  | clean
  | checkout
  | backup
  | saveRegistry
  deriving DecidableEq, Repr

/-- Identity of a tracked repository, the `<owner>/<name>` pair.  The registry
invariant guarantees the identity has this shape, so the Python
`repo_full.split("/")` always succeeds and is modelled by the two fields. -/
structure RepoId where
  owner : String
  name : String
  deriving DecidableEq, Repr

/-- The token-free origin URL `https://github.com/owner/name.git`. -/
def cleanUrl (r : RepoId) : String :=
  "https://github.com/" ++ r.owner ++ "/" ++ r.name ++ ".git"

/-- The token-bearing origin URL `https://TOKEN@github.com/owner/name.git`. -/
def tokenUrl (r : RepoId) (token : String) : String :=
  "https://" ++ token ++ "@github.com/" ++ r.owner ++ "/" ++ r.name ++ ".git"

/-- Python `text.lower()` applied characterwise, as a character list. -/
def lowerList (s : String) : List Char :=
  s.data.map Char.toLower

/-- Contiguous-subsequence test: `containsSeq needle hay` is `true` iff
`needle` occurs as a contiguous run inside `hay`. -/
def containsSeq (needle : List Char) : List Char → Bool
  | [] => needle.isEmpty
  | c :: rest => needle.isPrefixOf (c :: rest) || containsSeq needle rest

/-- Python `needle in text.lower()` where `needle` is a lowercase literal. -/
def containsKeyword (s : String) (needle : String) : Bool :=
  containsSeq needle.data (lowerList s)

/-- The porcelain two-letter codes that `has_unmerged_paths` treats as
unmerged entries. -/
def unmergedCodes : List (List Char) :=
  [['U','U'], ['A','A'], ['D','D'], ['A','U'], ['U','A'], ['D','U'], ['U','D']]

/-- One `git status --porcelain` line denotes an unmerged path when it has at
least two characters and its first two characters form one of the codes. -/
def lineIsUnmerged (line : List Char) : Bool :=
  decide (line.length ≥ 2) && unmergedCodes.contains (line.take 2)

/-- Split a character sequence at newline characters, as Python `splitlines`
does for `"\n"`-separated text. -/
def splitLines : List Char → List (List Char)
  | [] => [[]]
  | c :: rest =>
    if c = '\n' then [] :: splitLines rest
    else
      match splitLines rest with
      | [] => [[c]]
      | l :: ls => (c :: l) :: ls

/-- `has_unmerged_paths` (identical in gitsync.py:163 and gitsync_gui.py:92)
applied to the oracle result of its `git status --porcelain` call: a failed
status query yields `false`, otherwise the porcelain lines are scanned for
unmerged codes.  (Python `splitlines` is modelled by splitting on `"\n"`;
the possible empty trailing line is harmless since it is never unmerged.) -/
def has_unmerged_paths_out (statusRes : GitRes) : Bool :=
  statusRes.ok && (splitLines statusRes.out.data).any lineIsUnmerged

/-- `hard_reset_to_remote` (gitsync.py:232, gitsync_gui.py:332): `reset --hard
origin/branch` then `clean -fd`; the clean only runs when the reset succeeded,
and the combined output is the concatenation.  The oracle supplies the two
subprocess results. -/
def hard_reset_to_remote (resetRes cleanRes : GitRes) : GitRes × List GitEvent :=
  if !resetRes.ok then (resetRes, [GitEvent.hardReset])
  else if !cleanRes.ok then (cleanRes, [GitEvent.hardReset, GitEvent.clean])
  else ({ ok := true, out := (resetRes.out ++ "\n" ++ cleanRes.out).trim },
        [GitEvent.hardReset, GitEvent.clean])

/-- One subscription record of repos.json, with the fields the verified
operations inspect (`repo` key and `auto_update` flag).  The flag is modelled
as an explicit boolean (the JSON key present), matching the data-model
invariant that every record carries the flag. -/
structure SubRec where
  repo : String
  auto_update : Bool
  deriving DecidableEq, Repr

/-- The repos.json document: an ordered list of subscription records. -/
structure ReposData where
  subscriptions : List SubRec
  deriving DecidableEq, Repr

/-- `load_repos` (gitsync.py:54, gitsync_gui.py:41).  The backing store is
`none` when repos.json does not exist, `some c` when it holds text `c`; the
JSON library is the abstract `parse` boundary, returning `none` exactly when
`json.load` raises.  A missing file or a failed parse degrades to the empty
subscription list. -/
def load_repos (parse : String → Option ReposData) (store : Option String) : ReposData :=
  match store with
  | none => { subscriptions := [] }
  | some c =>
    match parse c with
    | none => { subscriptions := [] }
    | some d => d

/-- `remove_subscription` (gitsync.py:84): filter out every record whose
`repo` equals `owner/name`; when the list shrank, save and return `true`,
otherwise return `false` without writing.  The first component is the write
action: `some d` means repos.json is overwritten with `d`, `none` means the
file is not touched. -/
def remove_subscription (data : ReposData) (owner nm : String) :
    Option ReposData × Bool :=
  let repoFull := owner ++ "/" ++ nm
  let remaining := data.subscriptions.filter (fun s => s.repo != repoFull)
  if remaining.length < data.subscriptions.length then
    (some { subscriptions := remaining }, true)
  else
    (none, false)

/-- Divergence classification record stored by the GUI check pass
(gitsync_gui.py:925-936): the `check_results` status string plus which of the
two count keys the branch stores (`"ahead": ahead` vs `"behind": behind`),
together with the local/remote revisions. -/
structure CheckResult where
  status : String
  localRev : String
  remoteRev : String
  aheadField : Option Nat
  behindField : Option Nat
  deriving DecidableEq, Repr

/-- The divergence classifier of `_check_selected_updates_thread`
(gitsync_gui.py:925-936), as a function of the `(behind, ahead)` counts and
the two revision ids: three branches — both counts zero, ahead-only, and the
`else` branch taken by every pair with `behind > 0`. -/
def checkClassify (behind ahead : Nat) (lc rc : String) : CheckResult :=
  if behind = 0 && ahead = 0 then
    { status := "up-to-date", localRev := lc, remoteRev := rc,
      aheadField := none, behindField := none }
  else if behind = 0 && ahead > 0 then
    { status := "update-available", localRev := lc, remoteRev := rc,
      aheadField := some ahead, behindField := none }
  else
    { status := "update-available", localRev := lc, remoteRev := rc,
      aheadField := none, behindField := some behind }

/-- Decimal value of a digit string, Python `int(...)` restricted to the
digit-only strings the `isdigit()` guard admits. -/
def digitsToNat (l : List Char) : Nat :=
  l.foldl (fun acc c => acc * 10 + (c.toNat - 48)) 0

/-- `get_behind_ahead_count` (gitsync_gui.py:116) parses one `rev-list
--count` result: the count is the parsed integer when the call succeeded and
the output is a nonempty digit string (`isdigit()`), else `0`. -/
def parseCount (r : GitRes) : Nat :=
  if r.ok && !r.out.data.isEmpty && r.out.data.all Char.isDigit then
    digitsToNat r.out.data
  else 0

namespace gitsync

/-- `is_merge_conflict_error` of gitsync.py:149 — the CLI failure classifier:
empty output is not a conflict; otherwise the lowercased output is scanned
for the unmerged/conflict keywords.  Note the keyword list has no
unrelated-histories entry. -/
def is_merge_conflict_error (s : String) : Bool :=
  if s.data.isEmpty then false
  else
    containsKeyword s "unmerged" ||
    containsKeyword s "unmerged files" ||
    containsKeyword s "fix conflicts" ||
    containsKeyword s "unresolved conflict" ||
    containsKeyword s "you have unmerged paths"

end gitsync

namespace gitsync_gui

/-- `is_merge_conflict_error` of gitsync_gui.py:77 — the GUI failure
classifier: the CLI keyword list plus `"unrelated histories"`. -/
def is_merge_conflict_error (s : String) : Bool :=
  if s.data.isEmpty then false
  else
    containsKeyword s "unmerged" ||
    containsKeyword s "unmerged files" ||
    containsKeyword s "fix conflicts" ||
    containsKeyword s "unresolved conflict" ||
    containsKeyword s "you have unmerged paths" ||
    containsKeyword s "unrelated histories"

end gitsync_gui

/-- The `{"status": ..., "message": ...}` dictionary shape in which each
modelled routine reports its outcome. -/
structure SyncResult where
  status : String
  message : String
  deriving DecidableEq, Repr

/-- The `f"{local[:7]} → {remote[:7]}"` success message. -/
def shortArrow (a b : String) : String :=
  String.mk (a.data.take 7) ++ " → " ++ String.mk (b.data.take 7)

namespace gitsync

/-- `_set_remote_url_with_token` (gitsync.py:187): with a nonempty token,
write the token-bearing URL into origin; with an empty token do nothing.
Returns the new persisted remote URL and the performed operations. -/
def set_remote_url_with_token (r : RepoId) (token : String) (url : String) :
    String × List GitEvent :=
  if token = "" then (url, [])
  else (tokenUrl r token, [GitEvent.setUrl (tokenUrl r token)])

/-- `_restore_remote_url` (gitsync.py:199): with a nonempty token, write the
clean token-free URL back into origin; with an empty token do nothing. -/
def restore_remote_url (r : RepoId) (token : String) (url : String) :
    String × List GitEvent :=
  if token = "" then (url, [])
  else (cleanUrl r, [GitEvent.setUrl (cleanUrl r)])

/-- `pull_with_token` (gitsync.py:211): set the token URL, pull, restore the
clean URL; the pull result is returned unchanged on success and failure
alike.  `pullRes` is the oracle result of the `git pull` subprocess. -/
def pull_with_token (r : RepoId) (token : String) (pullRes : GitRes)
    (url : String) : GitRes × String × List GitEvent :=
  let s1 := set_remote_url_with_token r token url
  let s2 := restore_remote_url r token s1.1
  (pullRes, s2.1, s1.2 ++ [GitEvent.pull] ++ s2.2)

/-- `fetch_with_token` (gitsync.py:219): same shape as `pull_with_token` with
a `git fetch origin` in the middle. -/
def fetch_with_token (r : RepoId) (token : String) (fetchRes : GitRes)
    (url : String) : GitRes × String × List GitEvent :=
  let s1 := set_remote_url_with_token r token url
  let s2 := restore_remote_url r token s1.1
  (fetchRes, s2.1, s1.2 ++ [GitEvent.fetch] ++ s2.2)

/-- Oracle results for the subprocess calls `auto_recover_and_pull`
(gitsync.py:243) can make, one field per call site. -/
structure RecoverEnv where
  pullRetry : GitRes
  statusAfterRetry : GitRes
  fetchRes : GitRes
  resetRes : GitRes
  cleanRes : GitRes
  finalPull : GitRes
  deriving Repr

/-- `auto_recover_and_pull` (gitsync.py:243): abort merge (result ignored),
retry the pull; on success stop; otherwise, when the retry failure is neither
a conflict keyword match nor an unmerged working tree (the status query is
only issued when the keyword match fails, as Python `or` short-circuits),
give up with the retry output; else fetch, hard-reset + clean, force
checkout (result ignored) and pull once more.  Note: no backup anywhere. -/
def auto_recover_and_pull (r : RepoId) (token : String) (env : RecoverEnv)
    (url : String) : GitRes × String × List GitEvent :=
  let e0 : List GitEvent := [GitEvent.abortMerge]
  let p := pull_with_token r token env.pullRetry url
  if p.1.ok then (p.1, p.2.1, e0 ++ p.2.2)
  else
    let sc : Bool × List GitEvent :=
      if is_merge_conflict_error p.1.out then (true, [])
      else (has_unmerged_paths_out env.statusAfterRetry, [GitEvent.statusQuery])
    if !sc.1 then (p.1, p.2.1, e0 ++ p.2.2 ++ sc.2)
    else
      let f := fetch_with_token r token env.fetchRes p.2.1
      if !f.1.ok then
        ({ ok := false, out := "fetch 실패: " ++ f.1.out }, f.2.1,
          e0 ++ p.2.2 ++ sc.2 ++ f.2.2)
      else
        let hr := hard_reset_to_remote env.resetRes env.cleanRes
        if !hr.1.ok then
          ({ ok := false, out := "reset/clean 실패: " ++ hr.1.out }, f.2.1,
            e0 ++ p.2.2 ++ sc.2 ++ f.2.2 ++ hr.2)
        else
          let fp := pull_with_token r token env.finalPull f.2.1
          (fp.1, fp.2.1,
            e0 ++ p.2.2 ++ sc.2 ++ f.2.2 ++ hr.2 ++ [GitEvent.checkout] ++ fp.2.2)

/-- Oracle results for the subprocess calls `sync_repository`
(gitsync.py:282) can make, one field per call site, plus the two filesystem
probes. -/
structure SyncEnv where
  pathExists : Bool
  gitDirExists : Bool
  probeFetch : GitRes
  localHead : GitRes
  remoteHead : GitRes
  firstPull : GitRes
  statusAfterPull : GitRes
  recover : RecoverEnv
  newLocalHead : GitRes
  deriving Repr

/-- `sync_repository` (gitsync.py:282): filesystem probes, an extra direct
token set-url (line 304), probe fetch via `fetch_with_token`, revision
resolution (`get_local_commit` / `get_remote_commit`, whose `None`/empty
results are both falsy in Python), comparison, pull, and — only when the
pull failure is classified structural — delegation to
`auto_recover_and_pull`; non-structural pull failures return an error
immediately.  Successful updates re-resolve HEAD and persist the new
revision (`saveRegistry`) when it is truthy. -/
def sync_repository (r : RepoId) (token : String) (env : SyncEnv)
    (url : String) : SyncResult × String × List GitEvent :=
  if !env.pathExists then
    ({ status := "missing", message := "로컬 폴더 없음" }, url, [])
  else if !env.gitDirExists then
    ({ status := "error", message := "Git 저장소 아님" }, url, [])
  else
    let pre := set_remote_url_with_token r token url
    let f := fetch_with_token r token env.probeFetch pre.1
    let tr0 := pre.2 ++ f.2.2
    if !f.1.ok then
      ({ status := "error", message := "fetch 실패: " ++ f.1.out }, f.2.1, tr0)
    else
      let tr1 := tr0 ++ [GitEvent.revParse, GitEvent.revParse]
      if !env.localHead.ok || env.localHead.out = "" ||
          !env.remoteHead.ok || env.remoteHead.out = "" then
        ({ status := "error", message := "커밋 정보 확인 실패" }, f.2.1, tr1)
      else if env.localHead.out = env.remoteHead.out then
        ({ status := "up-to-date", message := "최신 상태" }, f.2.1, tr1)
      else
        let p := pull_with_token r token env.firstPull f.2.1
        let tr2 := tr1 ++ p.2.2
        if !p.1.ok then
          let sc : Bool × List GitEvent :=
            if is_merge_conflict_error p.1.out then (true, [])
            else (has_unmerged_paths_out env.statusAfterPull, [GitEvent.statusQuery])
          if sc.1 then
            let rc := auto_recover_and_pull r token env.recover p.2.1
            let tr3 := tr2 ++ sc.2 ++ rc.2.2
            if !rc.1.ok then
              ({ status := "error", message := "자동 복구 실패: " ++ rc.1.out },
                rc.2.1, tr3)
            else
              ({ status := "updated", message := "자동 복구 후 업데이트 완료" },
                rc.2.1,
                tr3 ++ [GitEvent.revParse] ++
                  (if env.newLocalHead.ok && !(env.newLocalHead.out = "") then
                    [GitEvent.saveRegistry] else []))
          else
            ({ status := "error", message := "pull 실패: " ++ p.1.out },
              p.2.1, tr2 ++ sc.2)
        else
          ({ status := "updated",
             message := shortArrow env.localHead.out env.remoteHead.out },
            p.2.1,
            tr2 ++ [GitEvent.revParse] ++
              (if env.newLocalHead.ok && !(env.newLocalHead.out = "") then
                [GitEvent.saveRegistry] else []))

/-- `sync_all` (gitsync.py:350): synchronize every subscription in order,
ignoring the `auto_update` flag (the source even prints that the flag is
ignored).  Each item carries its oracle environment and starting remote
URL. -/
def sync_all (token : String)
    (items : List (SubRec × RepoId × SyncEnv × String)) :
    List (SyncResult × String × List GitEvent) :=
  items.map (fun it => sync_repository it.2.1 token it.2.2.1 it.2.2.2)

end gitsync

namespace gitsync_gui

/-- `_pull_with_token` (gitsync_gui.py:342): inline token set-url, pull,
inline clean set-url; behaviourally identical to the CLI `pull_with_token`. -/
def pull_with_token (r : RepoId) (token : String) (pullRes : GitRes)
    (url : String) : GitRes × String × List GitEvent :=
  let s1 := gitsync.set_remote_url_with_token r token url
  let s2 := gitsync.restore_remote_url r token s1.1
  (pullRes, s2.1, s1.2 ++ [GitEvent.pull] ++ s2.2)

/-- Oracle results for the subprocess calls `_auto_recover_and_pull`
(gitsync_gui.py:376) can make, one field per call site.  `backupRes` is the
result of `_backup_local_folder` (success flag, backup path or error). -/
structure RecoverEnv where
  statusSb : GitRes
  statusPorcelain : GitRes
  abortRes : GitRes
  pullRetry : GitRes
  statusAfterRetry : GitRes
  backupRes : GitRes
  fetchRes : GitRes
  resetRes : GitRes
  cleanRes : GitRes
  finalPull : GitRes
  deriving Repr

/-- `_auto_recover_and_pull` (gitsync_gui.py:376): log a status summary (two
status queries), abort merge (result ignored), retry the pull; on success
stop; a non-structural retry failure gives up with the retry output; else
back up the local folder (best effort, result only logged), fetch (plain,
without token handling), hard-reset + clean, force checkout (ignored) and
pull once more. -/
def auto_recover_and_pull (r : RepoId) (token : String) (env : RecoverEnv)
    (url : String) : GitRes × String × List GitEvent :=
  let e0 : List GitEvent :=
    [GitEvent.statusQuery, GitEvent.statusQuery, GitEvent.abortMerge]
  let p := pull_with_token r token env.pullRetry url
  if p.1.ok then (p.1, p.2.1, e0 ++ p.2.2)
  else
    let sc : Bool × List GitEvent :=
      if is_merge_conflict_error p.1.out then (true, [])
      else (has_unmerged_paths_out env.statusAfterRetry, [GitEvent.statusQuery])
    if !sc.1 then (p.1, p.2.1, e0 ++ p.2.2 ++ sc.2)
    else
      let eB : List GitEvent := [GitEvent.backup]
      if !env.fetchRes.ok then
        ({ ok := false, out := "fetch 실패: " ++ env.fetchRes.out }, p.2.1,
          e0 ++ p.2.2 ++ sc.2 ++ eB ++ [GitEvent.fetch])
      else
        let hr := hard_reset_to_remote env.resetRes env.cleanRes
        if !hr.1.ok then
          ({ ok := false, out := "reset/clean 실패: " ++ hr.1.out }, p.2.1,
            e0 ++ p.2.2 ++ sc.2 ++ eB ++ [GitEvent.fetch] ++ hr.2)
        else
          let fp := pull_with_token r token env.finalPull p.2.1
          (fp.1, fp.2.1,
            e0 ++ p.2.2 ++ sc.2 ++ eB ++ [GitEvent.fetch] ++ hr.2 ++
              [GitEvent.checkout] ++ fp.2.2)

/-- Oracle results for `_check_and_update_single_thread`
(gitsync_gui.py:944), one field per call site; `behindRes`/`aheadRes` feed
`get_behind_ahead_count`. -/
structure SingleEnv where
  pathExists : Bool
  gitDirExists : Bool
  probeFetch : GitRes
  localHead : GitRes
  remoteHead : GitRes
  behindRes : GitRes
  aheadRes : GitRes
  backupRes : GitRes
  resetRes : GitRes
  cleanRes : GitRes
  firstPull : GitRes
  statusAfterPull : GitRes
  recover : RecoverEnv
  newLocalHead : GitRes
  deriving Repr

/-- `_check_and_update_single_thread` (gitsync_gui.py:944): probes, manual
token set-url / fetch / clean set-url, revision resolution, behind/ahead
counting, then the dispatch: `(0,0)` stop; `(behind=0, ahead>0)` back up and
hard-reset (no pull); otherwise (`behind>0`, diverged included) pull, with
the GUI recovery orchestrator on a structural pull failure.  The returned
status string summarizes the log/tree outcome of each exit. -/
def check_and_update_single (r : RepoId) (token : String) (env : SingleEnv)
    (url : String) : SyncResult × String × List GitEvent :=
  if !env.pathExists then
    ({ status := "missing", message := "로컬 폴더 없음" }, url, [])
  else if !env.gitDirExists then
    ({ status := "not-git", message := "Git 저장소 아님" }, url, [])
  else
    let pre := gitsync.set_remote_url_with_token r token url
    let post := gitsync.restore_remote_url r token pre.1
    let tr0 := pre.2 ++ [GitEvent.fetch] ++ post.2
    if !env.probeFetch.ok then
      ({ status := "fetch-failed", message := "fetch 실패: " ++ env.probeFetch.out },
        post.1, tr0)
    else
      let tr1 := tr0 ++ [GitEvent.revParse, GitEvent.revParse]
      if !env.localHead.ok || env.localHead.out = "" ||
          !env.remoteHead.ok || env.remoteHead.out = "" then
        ({ status := "commit-failed", message := "커밋 정보 확인 실패" }, post.1, tr1)
      else
        let behind := parseCount env.behindRes
        let ahead := parseCount env.aheadRes
        let tr2 := tr1 ++ [GitEvent.revList, GitEvent.revList]
        if behind = 0 && ahead = 0 then
          ({ status := "up-to-date", message := "이미 최신 버전입니다" }, post.1, tr2)
        else if behind = 0 && ahead > 0 then
          let hr := hard_reset_to_remote env.resetRes env.cleanRes
          let tr3 := tr2 ++ [GitEvent.backup] ++ hr.2
          if !hr.1.ok then
            ({ status := "reset-failed", message := "강제 리셋 실패: " ++ hr.1.out },
              post.1, tr3)
          else
            ({ status := "force-reset",
               message := shortArrow env.localHead.out env.remoteHead.out },
              post.1,
              tr3 ++ [GitEvent.revParse] ++
                (if env.newLocalHead.ok && !(env.newLocalHead.out = "") then
                  [GitEvent.saveRegistry] else []))
        else
          let p := pull_with_token r token env.firstPull post.1
          let tr3 := tr2 ++ p.2.2
          if p.1.ok then
            ({ status := "updated",
               message := shortArrow env.localHead.out env.remoteHead.out },
              p.2.1,
              tr3 ++ [GitEvent.revParse] ++
                (if env.newLocalHead.ok && !(env.newLocalHead.out = "") then
                  [GitEvent.saveRegistry] else []))
          else
            let sc : Bool × List GitEvent :=
              if is_merge_conflict_error p.1.out then (true, [])
              else (has_unmerged_paths_out env.statusAfterPull, [GitEvent.statusQuery])
            if sc.1 then
              let rc := auto_recover_and_pull r token env.recover p.2.1
              let tr4 := tr3 ++ sc.2 ++ rc.2.2
              if rc.1.ok then
                ({ status := "recovered", message := "자동 복구 후 업데이트 완료" },
                  rc.2.1,
                  tr4 ++ [GitEvent.revParse] ++
                    (if env.newLocalHead.ok && !(env.newLocalHead.out = "") then
                      [GitEvent.saveRegistry] else []))
              else
                ({ status := "recover-failed",
                   message := "자동 복구 실패: " ++ rc.1.out }, rc.2.1, tr4)
            else
              ({ status := "pull-failed", message := "업데이트 실패: " ++ p.1.out },
                p.2.1, tr3 ++ sc.2)

/-- Oracle results for one record of `_check_updates_thread`
(gitsync_gui.py:1370). -/
structure CheckEnv where
  pathExists : Bool
  gitDirExists : Bool
  probeFetch : GitRes
  localHead : GitRes
  remoteHead : GitRes
  deriving Repr

/-- One record of the unattended `_check_updates_thread` pass
(gitsync_gui.py:1380-1447): a record whose `auto_update` flag is off is
skipped before any git interaction; otherwise the record is probed (token
set-url, fetch, clean set-url) and its commits compared. -/
def check_updates_step (sub : SubRec) (r : RepoId) (token : String)
    (env : CheckEnv) (url : String) : SyncResult × String × List GitEvent :=
  if !sub.auto_update then
    ({ status := "skipped", message := "자동업데이트 꺼짐" }, url, [])
  else if !env.pathExists then
    ({ status := "missing", message := "폴더 없음" }, url, [])
  else if !env.gitDirExists then
    ({ status := "error", message := "Git 저장소 아님" }, url, [])
  else
    let pre := gitsync.set_remote_url_with_token r token url
    let post := gitsync.restore_remote_url r token pre.1
    let tr0 := pre.2 ++ [GitEvent.fetch] ++ post.2
    if !env.probeFetch.ok then
      ({ status := "error", message := "fetch 실패" }, post.1, tr0)
    else
      let tr1 := tr0 ++ [GitEvent.revParse, GitEvent.revParse]
      if !env.localHead.ok || env.localHead.out = "" ||
          !env.remoteHead.ok || env.remoteHead.out = "" then
        ({ status := "error", message := "커밋 확인 실패" }, post.1, tr1)
      else if env.localHead.out = env.remoteHead.out then
        ({ status := "up-to-date", message := "최신 상태" }, post.1, tr1)
      else
        ({ status := "update-available",
           message := shortArrow env.localHead.out env.remoteHead.out },
          post.1, tr1)

end gitsync_gui

/-- Trace scanner for the backup-precedes-reset property: `true` iff no
`hardReset` occurs before the first `backup` (vacuously `true` when the trace
has no `hardReset` at all). -/
def backupBeforeReset : List GitEvent → Bool
  | [] => true
  | GitEvent.hardReset :: _ => false
  | GitEvent.backup :: _ => true
  | _ :: rest => backupBeforeReset rest

/-- `true` exactly on the `fetch` event, for counting fetches in a trace. -/
def isFetch : GitEvent → Bool
  | GitEvent.fetch => true
  | _ => false

/-- The search-and-toggle loop of `_toggle_auto_update` (gitsync_gui.py:630):
find the first record whose `repo` equals `r`, flip its flag, and return the
flipped record together with the list with that record popped; `none` when no
record matches (the Python loop then falls through without saving). -/
def toggleFirst : List SubRec → String → Option (SubRec × List SubRec)
  | [], _ => none
  | s :: rest, r =>
    if s.repo = r then some ({ s with auto_update := !s.auto_update }, rest)
    else
      match toggleFirst rest r with
      | none => none
      | some (t, rest2) => some (t, s :: rest2)

/-- The insert-position scan of `_toggle_auto_update` (gitsync_gui.py:643):
Python computes the last index whose record has the flag set (-1 when none)
and inserts right after it; this returns that index plus one. -/
def insertPosAfterChecked : List SubRec → Nat
  | [] => 0
  | s :: rest =>
    let p := insertPosAfterChecked rest
    if p = 0 then (if s.auto_update then 1 else 0) else p + 1

/-- Python `list.insert(idx, x)`: insert before position `idx`, appending
when `idx` is past the end. -/
def pyInsert (l : List SubRec) (idx : Nat) (x : SubRec) : List SubRec :=
  l.take idx ++ x :: l.drop idx

/-- `_toggle_auto_update` (gitsync_gui.py:627): toggle the first matching
record; when the new flag is on, insert it right after the last flagged
record of the remaining list, otherwise append it at the end; the resulting
list is what is written back to repos.json (no record found leaves the list
untouched and unsaved). -/
def toggle_auto_update (subs : List SubRec) (r : String) : List SubRec :=
  match toggleFirst subs r with
  | none => subs
  | some (t, rest) =>
    if t.auto_update then pyInsert rest (insertPosAfterChecked rest) t
    else rest ++ [t]

/-- Grouping predicate of the registry ordering convention: every
`auto_update = true` record precedes every `auto_update = false` record. -/
def grouped : List SubRec → Bool
  | [] => true
  | s :: rest =>
    if s.auto_update then grouped rest else rest.all (fun t => !t.auto_update)

/-! ## Helper lemmas -/

/-- A list that shrank under `filter` contains an element failing the
predicate. -/
theorem length_filter_lt_iff_exists {α : Type} (p : α → Bool) (l : List α) :
    (l.filter p).length < l.length ↔ ∃ x ∈ l, p x = false := by
  induction l with
  | nil => simp
  | cons a t ih =>
    by_cases ha : p a
    · simp only [List.filter_cons, ha, if_pos, List.length_cons]
      constructor
      · intro h
        obtain ⟨x, hx, hpx⟩ := ih.mp (Nat.lt_of_succ_lt_succ h)
        exact ⟨x, List.mem_cons_of_mem a hx, hpx⟩
      · intro ⟨x, hx, hpx⟩
        rcases List.mem_cons.mp hx with rfl | hx
        · simp [ha] at hpx
        · exact Nat.succ_lt_succ (ih.mpr ⟨x, hx, hpx⟩)
    · simp only [List.filter_cons, ha, if_neg, List.length_cons]
      constructor
      · intro _
        exact ⟨a, List.mem_cons_self a t, Bool.not_eq_true _ ▸ by simpa using ha⟩
      · intro _
        exact Nat.lt_succ_of_le (List.length_filter_le p t)

/-! ## C9: load never errors, degrading to the empty list -/

/-- C9: for every backing-store state in which the registry file is missing or
its content is not parseable (the JSON boundary returns `none`), `load_repos`
returns the empty subscription list.  The Lean model is a total function, so
no error escapes: the two degraded cases both yield `[]`. -/
theorem claim_C9 (parse : String → Option ReposData) (store : Option String)
    (h : store = none ∨ ∃ c, store = some c ∧ parse c = none) :
    load_repos parse store = { subscriptions := [] } := by
  rcases h with h | ⟨c, hc, hp⟩
  · simp [load_repos, h]
  · simp [load_repos, hc, hp]

/-- Witness for C9 at a concrete degraded store. -/
theorem claim_C9_witness :
    load_repos (fun _ => none) (some "not json") = { subscriptions := [] } :=
  claim_C9 (fun _ => none) (some "not json") (Or.inr ⟨"not json", rfl, rfl⟩)

/-! ## C10: removal is atomic on the registry -/

/-- C10: `remove_subscription` returns `true` and overwrites repos.json with
the filtered list exactly when a record with the given `owner/name` identity
existed; when no record matches it returns `false` and performs no write at
all (the write action is `none`). -/
theorem claim_C10 (data : ReposData) (owner nm : String) :
    ((remove_subscription data owner nm).2 = true ↔
      ∃ s ∈ data.subscriptions, s.repo = owner ++ "/" ++ nm) ∧
    ((remove_subscription data owner nm).2 = false →
      (remove_subscription data owner nm).1 = none) ∧
    (∀ d, (remove_subscription data owner nm).1 = some d →
      d.subscriptions =
        data.subscriptions.filter (fun s => s.repo != owner ++ "/" ++ nm) ∧
      (remove_subscription data owner nm).2 = true) := by
  have key : ((data.subscriptions.filter
        (fun s => s.repo != owner ++ "/" ++ nm)).length < data.subscriptions.length) ↔
      ∃ s ∈ data.subscriptions, s.repo = owner ++ "/" ++ nm := by
    rw [length_filter_lt_iff_exists]
    constructor
    · rintro ⟨x, hx, hpx⟩
      exact ⟨x, hx, by simpa using hpx⟩
    · rintro ⟨x, hx, hpx⟩
      exact ⟨x, hx, by simp [hpx]⟩
  by_cases h : (data.subscriptions.filter
      (fun s => s.repo != owner ++ "/" ++ nm)).length < data.subscriptions.length
  · refine ⟨?_, ?_, ?_⟩
    · simp only [remove_subscription, h, if_pos]
      exact ⟨fun _ => key.mp h, fun _ => trivial⟩
    · simp [remove_subscription, h]
    · intro d hd
      simp only [remove_subscription, h, if_pos] at hd ⊢
      have hd' := Option.some.inj hd
      subst hd'
      exact ⟨rfl, trivial⟩
  · refine ⟨?_, ?_, ?_⟩
    · simp only [remove_subscription, h, if_neg, if_false]
      constructor
      · intro hfalse; cases hfalse
      · intro hex
        exact absurd (key.mpr hex) h
    · simp [remove_subscription, h]
    · intro d hd
      simp [remove_subscription, h] at hd

/-- Witness for C10 (the theorem has iff/implication content): at a concrete
registry the found case removes and the not-found case leaves the file
untouched. -/
theorem claim_C10_witness :
    ((remove_subscription { subscriptions := [{ repo := "a/b", auto_update := true }] }
        "a" "b").2 = true) ∧
    ((remove_subscription { subscriptions := [{ repo := "a/b", auto_update := true }] }
        "c" "d").1 = none) := by
  constructor
  · exact (claim_C10 { subscriptions := [{ repo := "a/b", auto_update := true }] }
      "a" "b").1.mpr ⟨{ repo := "a/b", auto_update := true }, by simp, rfl⟩
  · exact (claim_C10 { subscriptions := [{ repo := "a/b", auto_update := true }] }
      "c" "d").2.1 (by decide)

/-! ## C4: the divergence classifier -/

/-- C4 counterexample: the diverged pair `(behind, ahead) = (1, 1)` is
classified exactly as the pure behind pair `(1, 0)` — same status string,
same stored count field, so there is no distinct fourth `diverged`
classification. -/
theorem claim_C4_counterexample :
    checkClassify 1 1 "aaaaaaa" "bbbbbbb" = checkClassify 1 0 "aaaaaaa" "bbbbbbb" := by
  decide

/-- C4 amended: the classifier is a total function of `(behind, ahead)` with
three (not four) classifications: `(0,0)` yields up-to-date, `(0, ahead>0)`
yields the forced-reset flavour of update-available (the `ahead` count
stored), and every pair with `behind > 0` — the behind pairs and the diverged
pairs alike — yields the same update-available classification with the
`behind` count stored; in particular a diverged pair is classified
identically to the corresponding behind pair. -/
theorem claim_C4 (behind ahead : Nat) (lc rc : String) :
    (behind = 0 → ahead = 0 →
      checkClassify behind ahead lc rc =
        { status := "up-to-date", localRev := lc, remoteRev := rc,
          aheadField := none, behindField := none }) ∧
    (behind = 0 → 0 < ahead →
      checkClassify behind ahead lc rc =
        { status := "update-available", localRev := lc, remoteRev := rc,
          aheadField := some ahead, behindField := none }) ∧
    (0 < behind →
      checkClassify behind ahead lc rc =
        { status := "update-available", localRev := lc, remoteRev := rc,
          aheadField := none, behindField := some behind }) ∧
    (0 < behind → 0 < ahead →
      checkClassify behind ahead lc rc = checkClassify behind 0 lc rc) := by
  refine ⟨?_, ?_, ?_, ?_⟩
  · intro hb ha; simp [checkClassify, hb, ha]
  · intro hb ha; simp [checkClassify, hb, Nat.pos_iff_ne_zero.mp ha]
  · intro hb
    have hb' : ¬ behind = 0 := Nat.pos_iff_ne_zero.mp hb
    simp [checkClassify, hb']
  · intro hb _
    have hb' : ¬ behind = 0 := Nat.pos_iff_ne_zero.mp hb
    simp [checkClassify, hb']

/-- Witness for C4 at the four divergence shapes. -/
theorem claim_C4_witness :
    checkClassify 0 0 "a" "b" =
      { status := "up-to-date", localRev := "a", remoteRev := "b",
        aheadField := none, behindField := none } ∧
    checkClassify 0 2 "a" "b" =
      { status := "update-available", localRev := "a", remoteRev := "b",
        aheadField := some 2, behindField := none } ∧
    checkClassify 3 0 "a" "b" =
      { status := "update-available", localRev := "a", remoteRev := "b",
        aheadField := none, behindField := some 3 } ∧
    checkClassify 3 2 "a" "b" = checkClassify 3 0 "a" "b" :=
  ⟨(claim_C4 0 0 "a" "b").1 rfl rfl,
   (claim_C4 0 2 "a" "b").2.1 rfl (by decide),
   (claim_C4 3 0 "a" "b").2.2.1 (by decide),
   (claim_C4 3 2 "a" "b").2.2.2 (by decide) (by decide)⟩

/-! ## C5: unrelated histories and the failure classifiers -/

/-- C5 counterexample: the CLI failure classifier (gitsync.py:149) returns
`false` on git's standard unrelated-histories failure output, so for the CLI
pass an unrelated-history failure does NOT trigger the recovery
orchestrator. -/
theorem claim_C5_counterexample :
    gitsync.is_merge_conflict_error
      "fatal: refusing to merge unrelated histories" = false := by
  decide

/-- C5 amended: only the GUI failure classifier treats unrelated-history
output as a structural conflict — every output whose lowercasing contains
`"unrelated histories"` is classified `true` by gitsync_gui's classifier —
while the CLI classifier of gitsync.py has no unrelated-histories keyword and
returns `false` on the standard unrelated-histories message. -/
theorem claim_C5 (s : String)
    (h : containsKeyword s "unrelated histories" = true) :
    gitsync_gui.is_merge_conflict_error s = true := by
  have hne : ¬ s.data.isEmpty := by
    intro he
    have h0 : s.data = [] := by simpa [List.isEmpty_iff] using he
    simp only [containsKeyword, lowerList, h0, List.map_nil] at h
    simp [containsSeq] at h
  unfold gitsync_gui.is_merge_conflict_error
  rw [if_neg hne, h]
  simp

/-- Witness for C5 at git's standard unrelated-histories message. -/
theorem claim_C5_witness :
    gitsync_gui.is_merge_conflict_error
      "fatal: refusing to merge unrelated histories" = true :=
  claim_C5 "fatal: refusing to merge unrelated histories" (by decide)

/-! ## C7: token window around network operations -/

/-- C7: for every pull or fetch with a nonempty token, the origin URL is set
to the token-bearing URL immediately before the network operation and
restored to the clean token-free URL immediately after it — the trace is
exactly set/operate/restore — on success and failure alike (the subprocess
result is passed through unchanged), so the persisted remote URL after the
call is the clean URL and, whenever the token does not occur inside the
clean URL itself, the persisted URL does not contain the token.  The GUI
`_pull_with_token` behaves identically to the CLI one. -/
theorem claim_C7 (r : RepoId) (token url : String) (pullRes fetchRes : GitRes)
    (htok : token ≠ "") :
    gitsync.pull_with_token r token pullRes url =
      (pullRes, cleanUrl r,
        [GitEvent.setUrl (tokenUrl r token), GitEvent.pull,
         GitEvent.setUrl (cleanUrl r)]) ∧
    gitsync.fetch_with_token r token fetchRes url =
      (fetchRes, cleanUrl r,
        [GitEvent.setUrl (tokenUrl r token), GitEvent.fetch,
         GitEvent.setUrl (cleanUrl r)]) ∧
    gitsync_gui.pull_with_token r token pullRes url =
      gitsync.pull_with_token r token pullRes url ∧
    (containsSeq token.data (cleanUrl r).data = false →
      containsSeq token.data
        ((gitsync.pull_with_token r token pullRes url).2.1).data = false) := by
  refine ⟨?_, ?_, ?_, ?_⟩
  · simp [gitsync.pull_with_token, gitsync.set_remote_url_with_token,
      gitsync.restore_remote_url, htok]
  · simp [gitsync.fetch_with_token, gitsync.set_remote_url_with_token,
      gitsync.restore_remote_url, htok]
  · simp [gitsync.pull_with_token, gitsync_gui.pull_with_token]
  · intro hcs
    simp [gitsync.pull_with_token, gitsync.set_remote_url_with_token,
      gitsync.restore_remote_url, htok, hcs]

/-- Witness for C7 at a concrete repository and token. -/
theorem claim_C7_witness :
    gitsync.pull_with_token { owner := "o", name := "n" } "tok"
        { ok := false, out := "fatal: auth" } "u" =
      ({ ok := false, out := "fatal: auth" },
        "https://github.com/o/n.git",
        [GitEvent.setUrl "https://tok@github.com/o/n.git", GitEvent.pull,
         GitEvent.setUrl "https://github.com/o/n.git"]) ∧
    containsSeq "tok".data "https://github.com/o/n.git".data = false := by
  constructor
  · exact (claim_C7 { owner := "o", name := "n" } "tok" "u"
      { ok := false, out := "fatal: auth" } { ok := true, out := "" }
      (by decide)).1
  · decide

/-! ## C1: non-structural update failures never trigger destructive recovery -/

/-- C1: when a normal update fails and the failure is not classified as a
structural conflict (no conflict keyword in the output and no unmerged paths
in the working tree), the CLI engine surfaces the error immediately — the
outcome is the error result carrying the pull output — and performs no
destructive step: the trace has no backup, no hard reset, no clean, and only
the single probe fetch that preceded the pull (no fetch-for-reset).
Likewise, inside the recovery orchestrator, a retry failure that is not
structural aborts the whole recovery with the failure result and without any
fetch, backup, reset or clean. -/
theorem claim_C1 :
    (∀ (r : RepoId) (token url : String) (env : gitsync.SyncEnv),
      env.pathExists = true → env.gitDirExists = true →
      env.probeFetch.ok = true →
      env.localHead.ok = true → env.localHead.out ≠ "" →
      env.remoteHead.ok = true → env.remoteHead.out ≠ "" →
      env.localHead.out ≠ env.remoteHead.out →
      env.firstPull.ok = false →
      gitsync.is_merge_conflict_error env.firstPull.out = false →
      has_unmerged_paths_out env.statusAfterPull = false →
      (gitsync.sync_repository r token env url).1 =
        { status := "error", message := "pull 실패: " ++ env.firstPull.out } ∧
      GitEvent.backup ∉ (gitsync.sync_repository r token env url).2.2 ∧
      GitEvent.hardReset ∉ (gitsync.sync_repository r token env url).2.2 ∧
      GitEvent.clean ∉ (gitsync.sync_repository r token env url).2.2 ∧
      ((gitsync.sync_repository r token env url).2.2).countP isFetch = 1) ∧
    (∀ (r : RepoId) (token url : String) (renv : gitsync.RecoverEnv),
      renv.pullRetry.ok = false →
      gitsync.is_merge_conflict_error renv.pullRetry.out = false →
      has_unmerged_paths_out renv.statusAfterRetry = false →
      (gitsync.auto_recover_and_pull r token renv url).1 = renv.pullRetry ∧
      GitEvent.backup ∉ (gitsync.auto_recover_and_pull r token renv url).2.2 ∧
      GitEvent.fetch ∉ (gitsync.auto_recover_and_pull r token renv url).2.2 ∧
      GitEvent.hardReset ∉ (gitsync.auto_recover_and_pull r token renv url).2.2 ∧
      GitEvent.clean ∉ (gitsync.auto_recover_and_pull r token renv url).2.2) := by
  constructor
  · intro r token url env hp hg hf hl hl2 hr hr2 hne hpull hconf hunm
    by_cases ht : token = "" <;>
      simp [gitsync.sync_repository, gitsync.pull_with_token,
        gitsync.fetch_with_token, gitsync.set_remote_url_with_token,
        gitsync.restore_remote_url, hp, hg, hf, hl, hl2, hr, hr2, hne, hpull,
        hconf, hunm, ht, isFetch, List.countP_cons]
  · intro r token url renv hpull hconf hunm
    by_cases ht : token = "" <;>
      simp [gitsync.auto_recover_and_pull, gitsync.pull_with_token,
        gitsync.set_remote_url_with_token, gitsync.restore_remote_url,
        hpull, hconf, hunm, ht]

/-- Witness for C1 at a concrete authentication failure. -/
theorem claim_C1_witness :
    (gitsync.sync_repository { owner := "o", name := "n" } ""
        { pathExists := true, gitDirExists := true,
          probeFetch := { ok := true, out := "" },
          localHead := { ok := true, out := "aaaaaaaa" },
          remoteHead := { ok := true, out := "bbbbbbbb" },
          firstPull := { ok := false, out := "fatal: Authentication failed" },
          statusAfterPull := { ok := true, out := "" },
          recover := { pullRetry := { ok := true, out := "" },
                       statusAfterRetry := { ok := true, out := "" },
                       fetchRes := { ok := true, out := "" },
                       resetRes := { ok := true, out := "" },
                       cleanRes := { ok := true, out := "" },
                       finalPull := { ok := true, out := "" } },
          newLocalHead := { ok := true, out := "" } } "u").1 =
      { status := "error",
        message := "pull 실패: fatal: Authentication failed" } ∧
    (gitsync.auto_recover_and_pull { owner := "o", name := "n" } ""
        { pullRetry := { ok := false, out := "fatal: Authentication failed" },
          statusAfterRetry := { ok := true, out := "" },
          fetchRes := { ok := true, out := "" },
          resetRes := { ok := true, out := "" },
          cleanRes := { ok := true, out := "" },
          finalPull := { ok := true, out := "" } } "u").1 =
      { ok := false, out := "fatal: Authentication failed" } := by
  constructor
  · exact (claim_C1.1 { owner := "o", name := "n" } "" "u"
      { pathExists := true, gitDirExists := true,
        probeFetch := { ok := true, out := "" },
        localHead := { ok := true, out := "aaaaaaaa" },
        remoteHead := { ok := true, out := "bbbbbbbb" },
        firstPull := { ok := false, out := "fatal: Authentication failed" },
        statusAfterPull := { ok := true, out := "" },
        recover := { pullRetry := { ok := true, out := "" },
                     statusAfterRetry := { ok := true, out := "" },
                     fetchRes := { ok := true, out := "" },
                     resetRes := { ok := true, out := "" },
                     cleanRes := { ok := true, out := "" },
                     finalPull := { ok := true, out := "" } },
        newLocalHead := { ok := true, out := "" } }
      rfl rfl rfl rfl (by decide) rfl (by decide) (by decide) rfl
      (by decide) (by decide)).1
  · exact (claim_C1.2 { owner := "o", name := "n" } "" "u"
      { pullRetry := { ok := false, out := "fatal: Authentication failed" },
        statusAfterRetry := { ok := true, out := "" },
        fetchRes := { ok := true, out := "" },
        resetRes := { ok := true, out := "" },
        cleanRes := { ok := true, out := "" },
        finalPull := { ok := true, out := "" } }
      rfl (by decide) (by decide)).1

/-! ## C2: backup precedes the hard reset -/

/-- C2 counterexample: a CLI recovery run (gitsync.py `auto_recover_and_pull`)
whose retry fails with a conflict, so the run reaches the hard-reset step —
the trace contains the hard reset but no backup attempt at all: the CLI
recovery orchestrator hard-resets without any prior backup. -/
theorem claim_C2_counterexample :
    GitEvent.hardReset ∈
      (gitsync.auto_recover_and_pull { owner := "o", name := "n" } ""
        { pullRetry :=
            { ok := false,
              out := "Automatic merge failed; fix conflicts and then commit the result." },
          statusAfterRetry := { ok := true, out := "" },
          fetchRes := { ok := true, out := "" },
          resetRes := { ok := true, out := "" },
          cleanRes := { ok := true, out := "" },
          finalPull := { ok := true, out := "" } } "u").2.2 ∧
    GitEvent.backup ∉
      (gitsync.auto_recover_and_pull { owner := "o", name := "n" } ""
        { pullRetry :=
            { ok := false,
              out := "Automatic merge failed; fix conflicts and then commit the result." },
          statusAfterRetry := { ok := true, out := "" },
          fetchRes := { ok := true, out := "" },
          resetRes := { ok := true, out := "" },
          cleanRes := { ok := true, out := "" },
          finalPull := { ok := true, out := "" } } "u").2.2 := by
  constructor <;> decide

/-- C2 amended: in the GUI recovery orchestrator
(gitsync_gui.py `_auto_recover_and_pull`) the claimed ordering does hold: in
every invocation, whatever the oracle outcomes, no hard reset occurs before a
backup attempt — the trace scanner meets a `backup` (or the end of the trace)
before any `hardReset` — so every run reaching the hard-reset step attempted
the backup first.  The CLI orchestrator (gitsync.py `auto_recover_and_pull`)
has no backup step at all and hard-resets without one (see the
counterexample). -/
theorem claim_C2 (r : RepoId) (token url : String)
    (env : gitsync_gui.RecoverEnv) :
    backupBeforeReset
      ((gitsync_gui.auto_recover_and_pull r token env url).2.2) = true := by
  by_cases ht : token = "" <;>
  by_cases h1 : env.pullRetry.ok <;>
  by_cases h2 : gitsync_gui.is_merge_conflict_error env.pullRetry.out <;>
  by_cases h3 : has_unmerged_paths_out env.statusAfterRetry <;>
  by_cases h4 : env.fetchRes.ok <;>
  by_cases h5 : env.resetRes.ok <;>
  by_cases h6 : env.cleanRes.ok <;>
  by_cases h7 : env.finalPull.ok <;>
    simp [gitsync_gui.auto_recover_and_pull, gitsync_gui.pull_with_token,
      gitsync.set_remote_url_with_token, gitsync.restore_remote_url,
      hard_reset_to_remote, backupBeforeReset,
      ht, h1, h2, h3, h4, h5, h6, h7]

/-! ## C3: dispatch for the ahead and diverged states -/

/-- C3 counterexample: a diverged repository (behind = 1, ahead = 1) in the
GUI single-repository updater takes the normal pull path — the trace contains
a pull and neither a backup nor a hard reset — contradicting the claim that
diverged repositories get backup + hard reset directly with no pull. -/
theorem claim_C3_counterexample :
    GitEvent.pull ∈
      (gitsync_gui.check_and_update_single { owner := "o", name := "n" } ""
        { pathExists := true, gitDirExists := true,
          probeFetch := { ok := true, out := "" },
          localHead := { ok := true, out := "aaaaaaaa" },
          remoteHead := { ok := true, out := "bbbbbbbb" },
          behindRes := { ok := true, out := "1" },
          aheadRes := { ok := true, out := "1" },
          backupRes := { ok := true, out := "" },
          resetRes := { ok := true, out := "" },
          cleanRes := { ok := true, out := "" },
          firstPull := { ok := true, out := "" },
          statusAfterPull := { ok := true, out := "" },
          recover := { statusSb := { ok := true, out := "" },
                       statusPorcelain := { ok := true, out := "" },
                       abortRes := { ok := true, out := "" },
                       pullRetry := { ok := true, out := "" },
                       statusAfterRetry := { ok := true, out := "" },
                       backupRes := { ok := true, out := "" },
                       fetchRes := { ok := true, out := "" },
                       resetRes := { ok := true, out := "" },
                       cleanRes := { ok := true, out := "" },
                       finalPull := { ok := true, out := "" } },
          newLocalHead := { ok := true, out := "cccccccc" } } "u").2.2 ∧
    GitEvent.backup ∉
      (gitsync_gui.check_and_update_single { owner := "o", name := "n" } ""
        { pathExists := true, gitDirExists := true,
          probeFetch := { ok := true, out := "" },
          localHead := { ok := true, out := "aaaaaaaa" },
          remoteHead := { ok := true, out := "bbbbbbbb" },
          behindRes := { ok := true, out := "1" },
          aheadRes := { ok := true, out := "1" },
          backupRes := { ok := true, out := "" },
          resetRes := { ok := true, out := "" },
          cleanRes := { ok := true, out := "" },
          firstPull := { ok := true, out := "" },
          statusAfterPull := { ok := true, out := "" },
          recover := { statusSb := { ok := true, out := "" },
                       statusPorcelain := { ok := true, out := "" },
                       abortRes := { ok := true, out := "" },
                       pullRetry := { ok := true, out := "" },
                       statusAfterRetry := { ok := true, out := "" },
                       backupRes := { ok := true, out := "" },
                       fetchRes := { ok := true, out := "" },
                       resetRes := { ok := true, out := "" },
                       cleanRes := { ok := true, out := "" },
                       finalPull := { ok := true, out := "" } },
          newLocalHead := { ok := true, out := "cccccccc" } } "u").2.2 ∧
    GitEvent.hardReset ∉
      (gitsync_gui.check_and_update_single { owner := "o", name := "n" } ""
        { pathExists := true, gitDirExists := true,
          probeFetch := { ok := true, out := "" },
          localHead := { ok := true, out := "aaaaaaaa" },
          remoteHead := { ok := true, out := "bbbbbbbb" },
          behindRes := { ok := true, out := "1" },
          aheadRes := { ok := true, out := "1" },
          backupRes := { ok := true, out := "" },
          resetRes := { ok := true, out := "" },
          cleanRes := { ok := true, out := "" },
          firstPull := { ok := true, out := "" },
          statusAfterPull := { ok := true, out := "" },
          recover := { statusSb := { ok := true, out := "" },
                       statusPorcelain := { ok := true, out := "" },
                       abortRes := { ok := true, out := "" },
                       pullRetry := { ok := true, out := "" },
                       statusAfterRetry := { ok := true, out := "" },
                       backupRes := { ok := true, out := "" },
                       fetchRes := { ok := true, out := "" },
                       resetRes := { ok := true, out := "" },
                       cleanRes := { ok := true, out := "" },
                       finalPull := { ok := true, out := "" } },
          newLocalHead := { ok := true, out := "cccccccc" } } "u").2.2 := by
  refine ⟨?_, ?_, ?_⟩ <;> decide

/-- C3 amended: in the GUI single-repository updater only the `ahead` state
(behind = 0, ahead > 0) gets the direct backup-then-hard-reset treatment with
no pull attempted; a `diverged` state (behind > 0, ahead > 0) instead takes
the normal pull path (recovery only on a structural pull failure), so a pull
is always attempted there. -/
theorem claim_C3 (r : RepoId) (token url : String) (env : gitsync_gui.SingleEnv)
    (hp : env.pathExists = true) (hg : env.gitDirExists = true)
    (hf : env.probeFetch.ok = true)
    (hl : env.localHead.ok = true) (hl2 : env.localHead.out ≠ "")
    (hr : env.remoteHead.ok = true) (hr2 : env.remoteHead.out ≠ "") :
    (parseCount env.behindRes = 0 → 0 < parseCount env.aheadRes →
      GitEvent.backup ∈ (gitsync_gui.check_and_update_single r token env url).2.2 ∧
      GitEvent.hardReset ∈ (gitsync_gui.check_and_update_single r token env url).2.2 ∧
      GitEvent.pull ∉ (gitsync_gui.check_and_update_single r token env url).2.2 ∧
      backupBeforeReset ((gitsync_gui.check_and_update_single r token env url).2.2) = true) ∧
    (0 < parseCount env.behindRes → 0 < parseCount env.aheadRes →
      GitEvent.pull ∈ (gitsync_gui.check_and_update_single r token env url).2.2) := by
  constructor
  · intro hb ha
    have ha' : ¬ parseCount env.aheadRes = 0 := by omega
    by_cases ht : token = "" <;>
    by_cases h5 : env.resetRes.ok <;>
    by_cases h6 : env.cleanRes.ok <;>
    by_cases h7 : env.newLocalHead.ok <;>
    by_cases h8 : env.newLocalHead.out = "" <;>
      simp [gitsync_gui.check_and_update_single, gitsync_gui.pull_with_token,
        gitsync.set_remote_url_with_token, gitsync.restore_remote_url,
        hard_reset_to_remote, backupBeforeReset, hp, hg, hf, hl, hl2, hr, hr2,
        hb, ha, ha', ht, h5, h6, h7, h8]
  · intro hb ha
    have hb' : ¬ parseCount env.behindRes = 0 := by omega
    by_cases ht : token = "" <;>
      simp only [gitsync_gui.check_and_update_single, gitsync_gui.pull_with_token,
        gitsync.set_remote_url_with_token, gitsync.restore_remote_url,
        hp, hg, hf, hl, hr, ht, Bool.not_true, Bool.not_false, if_false, if_true,
        Bool.false_eq_true, Bool.true_eq_false, ite_false, ite_true] <;>
      simp [hl2, hr2, hb', ht] <;>
      split_ifs <;>
      simp_all

/-- Witness for C3: a concrete `ahead` repository (behind "0", ahead "2") is
backed up and hard-reset without a pull, and a concrete diverged one
(behind "1", ahead "1") gets a pull. -/
theorem claim_C3_witness :
    (GitEvent.backup ∈
      (gitsync_gui.check_and_update_single { owner := "o", name := "n" } ""
        { pathExists := true, gitDirExists := true,
          probeFetch := { ok := true, out := "" },
          localHead := { ok := true, out := "aaaaaaaa" },
          remoteHead := { ok := true, out := "bbbbbbbb" },
          behindRes := { ok := true, out := "0" },
          aheadRes := { ok := true, out := "2" },
          backupRes := { ok := true, out := "" },
          resetRes := { ok := true, out := "" },
          cleanRes := { ok := true, out := "" },
          firstPull := { ok := true, out := "" },
          statusAfterPull := { ok := true, out := "" },
          recover := { statusSb := { ok := true, out := "" },
                       statusPorcelain := { ok := true, out := "" },
                       abortRes := { ok := true, out := "" },
                       pullRetry := { ok := true, out := "" },
                       statusAfterRetry := { ok := true, out := "" },
                       backupRes := { ok := true, out := "" },
                       fetchRes := { ok := true, out := "" },
                       resetRes := { ok := true, out := "" },
                       cleanRes := { ok := true, out := "" },
                       finalPull := { ok := true, out := "" } },
          newLocalHead := { ok := true, out := "cccccccc" } } "u").2.2) ∧
    GitEvent.pull ∉
      (gitsync_gui.check_and_update_single { owner := "o", name := "n" } ""
        { pathExists := true, gitDirExists := true,
          probeFetch := { ok := true, out := "" },
          localHead := { ok := true, out := "aaaaaaaa" },
          remoteHead := { ok := true, out := "bbbbbbbb" },
          behindRes := { ok := true, out := "0" },
          aheadRes := { ok := true, out := "2" },
          backupRes := { ok := true, out := "" },
          resetRes := { ok := true, out := "" },
          cleanRes := { ok := true, out := "" },
          firstPull := { ok := true, out := "" },
          statusAfterPull := { ok := true, out := "" },
          recover := { statusSb := { ok := true, out := "" },
                       statusPorcelain := { ok := true, out := "" },
                       abortRes := { ok := true, out := "" },
                       pullRetry := { ok := true, out := "" },
                       statusAfterRetry := { ok := true, out := "" },
                       backupRes := { ok := true, out := "" },
                       fetchRes := { ok := true, out := "" },
                       resetRes := { ok := true, out := "" },
                       cleanRes := { ok := true, out := "" },
                       finalPull := { ok := true, out := "" } },
          newLocalHead := { ok := true, out := "cccccccc" } } "u").2.2 := by
  have h := claim_C3 { owner := "o", name := "n" } "" "u"
    { pathExists := true, gitDirExists := true,
      probeFetch := { ok := true, out := "" },
      localHead := { ok := true, out := "aaaaaaaa" },
      remoteHead := { ok := true, out := "bbbbbbbb" },
      behindRes := { ok := true, out := "0" },
      aheadRes := { ok := true, out := "2" },
      backupRes := { ok := true, out := "" },
      resetRes := { ok := true, out := "" },
      cleanRes := { ok := true, out := "" },
      firstPull := { ok := true, out := "" },
      statusAfterPull := { ok := true, out := "" },
      recover := { statusSb := { ok := true, out := "" },
                   statusPorcelain := { ok := true, out := "" },
                   abortRes := { ok := true, out := "" },
                   pullRetry := { ok := true, out := "" },
                   statusAfterRetry := { ok := true, out := "" },
                   backupRes := { ok := true, out := "" },
                   fetchRes := { ok := true, out := "" },
                   resetRes := { ok := true, out := "" },
                   cleanRes := { ok := true, out := "" },
                   finalPull := { ok := true, out := "" } },
      newLocalHead := { ok := true, out := "cccccccc" } }
    rfl rfl rfl rfl (by decide) rfl (by decide)
  have h1 := h.1 (by decide) (by decide)
  exact ⟨h1.1, h1.2.2.1⟩

/-! ## C6: the autoSync flag in unattended passes -/

/-- C6 counterexample: a record with the flag off, run through the CLI
unattended pass `sync_all`, is fully probed — the trace contains the fetch —
and its outcome is "up-to-date", not any skipped status: gitsync.py ignores
the `auto_update` flag (its banner even says so). -/
theorem claim_C6_counterexample :
    gitsync.sync_all "" [({ repo := "o/n", auto_update := false },
      { owner := "o", name := "n" },
      { pathExists := true, gitDirExists := true,
        probeFetch := { ok := true, out := "" },
        localHead := { ok := true, out := "aaaa" },
        remoteHead := { ok := true, out := "aaaa" },
        firstPull := { ok := true, out := "" },
        statusAfterPull := { ok := true, out := "" },
        recover := { pullRetry := { ok := true, out := "" },
                     statusAfterRetry := { ok := true, out := "" },
                     fetchRes := { ok := true, out := "" },
                     resetRes := { ok := true, out := "" },
                     cleanRes := { ok := true, out := "" },
                     finalPull := { ok := true, out := "" } },
        newLocalHead := { ok := true, out := "aaaa" } }, "u")] =
    [({ status := "up-to-date", message := "최신 상태" }, "u",
      [GitEvent.fetch, GitEvent.revParse, GitEvent.revParse])] := by
  decide

/-- C6 amended: only the GUI unattended check pass honours the flag — a
record with `auto_update = false` is skipped before any git interaction,
with the skipped status and an empty trace — while the CLI unattended pass
(`sync_all` of gitsync.py) processes every record identically whatever the
flag's value. -/
theorem claim_C6 :
    (∀ (sub : SubRec) (r : RepoId) (token : String) (env : gitsync_gui.CheckEnv)
        (url : String),
      sub.auto_update = false →
      gitsync_gui.check_updates_step sub r token env url =
        ({ status := "skipped", message := "자동업데이트 꺼짐" }, url, [])) ∧
    (∀ (token : String) (sub : SubRec) (r : RepoId) (env : gitsync.SyncEnv)
        (url : String),
      gitsync.sync_all token [({ sub with auto_update := false }, r, env, url)] =
        gitsync.sync_all token [({ sub with auto_update := true }, r, env, url)]) := by
  constructor
  · intro sub r token env url h
    simp [gitsync_gui.check_updates_step, h]
  · intro token sub r env url
    rfl

/-- Witness for C6 at a concrete flag-off record. -/
theorem claim_C6_witness :
    gitsync_gui.check_updates_step { repo := "o/n", auto_update := false }
        { owner := "o", name := "n" } "tok"
        { pathExists := true, gitDirExists := true,
          probeFetch := { ok := true, out := "" },
          localHead := { ok := true, out := "aaaa" },
          remoteHead := { ok := true, out := "aaaa" } } "u" =
      ({ status := "skipped", message := "자동업데이트 꺼짐" }, "u", []) :=
  claim_C6.1 { repo := "o/n", auto_update := false } { owner := "o", name := "n" }
    "tok"
    { pathExists := true, gitDirExists := true,
      probeFetch := { ok := true, out := "" },
      localHead := { ok := true, out := "aaaa" },
      remoteHead := { ok := true, out := "aaaa" } } "u" rfl

/-! ## C8: toggling preserves grouping and in-group order -/

/-- A list of all-unflagged records is grouped. -/
theorem grouped_of_all_false : ∀ (F : List SubRec),
    (∀ s ∈ F, s.auto_update = false) → grouped F = true := by
  intro F
  induction F with
  | nil => intro _; rfl
  | cons f F' ih =>
    intro hF
    have hf := hF f (List.mem_cons_self f F')
    simp only [grouped, hf, Bool.false_eq_true, if_false]
    exact List.all_eq_true.mpr
      (fun t ht => by simp [hF t (List.mem_cons_of_mem f ht)])

/-- A flagged block followed by an unflagged block is grouped. -/
theorem grouped_of_append : ∀ (T F : List SubRec),
    (∀ s ∈ T, s.auto_update = true) → (∀ s ∈ F, s.auto_update = false) →
    grouped (T ++ F) = true := by
  intro T
  induction T with
  | nil => intro F _ hF; simpa using grouped_of_all_false F hF
  | cons a T' ih =>
    intro F hT hF
    have ha := hT a (List.mem_cons_self a T')
    simp only [List.cons_append, grouped, ha, if_true]
    exact ih F (fun s hs => hT s (List.mem_cons_of_mem a hs)) hF

/-- A grouped list splits into its flagged prefix and unflagged suffix. -/
theorem grouped_decomp : ∀ (l : List SubRec), grouped l = true →
    ∃ T F, l = T ++ F ∧ (∀ s ∈ T, s.auto_update = true) ∧
      (∀ s ∈ F, s.auto_update = false) := by
  intro l
  induction l with
  | nil => intro _; exact ⟨[], [], rfl, by simp, by simp⟩
  | cons a tl ih =>
    intro h
    by_cases ha : a.auto_update
    · obtain ⟨T, F, htl, hT, hF⟩ := ih (by simpa [grouped, ha] using h)
      refine ⟨a :: T, F, by rw [htl, List.cons_append], ?_, hF⟩
      intro s hs
      rcases List.mem_cons.mp hs with rfl | hs
      · exact ha
      · exact hT s hs
    · have ha' : a.auto_update = false := by simpa using ha
      have htl : tl.all (fun t => !t.auto_update) = true := by
        simpa [grouped, ha'] using h
      refine ⟨[], a :: tl, rfl, by simp, ?_⟩
      intro s hs
      rcases List.mem_cons.mp hs with rfl | hs
      · exact ha'
      · simpa using List.all_eq_true.mp htl s hs

/-- The insert-position scan yields 0 on an all-unflagged list. -/
theorem insertPos_all_false : ∀ (F : List SubRec),
    (∀ s ∈ F, s.auto_update = false) → insertPosAfterChecked F = 0 := by
  intro F
  induction F with
  | nil => intro _; rfl
  | cons f F' ih =>
    intro hF
    have hf := hF f (List.mem_cons_self f F')
    simp [insertPosAfterChecked,
      ih (fun s hs => hF s (List.mem_cons_of_mem f hs)), hf]

/-- On a grouped list the insert-position scan points right past the flagged
prefix. -/
theorem insertPos_append : ∀ (T F : List SubRec),
    (∀ s ∈ T, s.auto_update = true) → (∀ s ∈ F, s.auto_update = false) →
    insertPosAfterChecked (T ++ F) = T.length := by
  intro T
  induction T with
  | nil => intro F _ hF; simpa using insertPos_all_false F hF
  | cons a T' ih =>
    intro F hT hF
    have ha := hT a (List.mem_cons_self a T')
    have hrec := ih F (fun s hs => hT s (List.mem_cons_of_mem a hs)) hF
    by_cases hz : T'.length = 0
    · simp [insertPosAfterChecked, List.cons_append, hrec, hz, ha]
    · simp [insertPosAfterChecked, List.cons_append, hrec, hz]

/-- A successful `toggleFirst` splits the list around the first matching
record: the remainder is the list with that record removed in place, and the
returned record is the flipped match. -/
theorem toggleFirst_eq_some : ∀ (l : List SubRec) (r : String) (t : SubRec)
    (rest : List SubRec), toggleFirst l r = some (t, rest) →
    ∃ A x B, l = A ++ x :: B ∧ rest = A ++ B ∧
      t = { x with auto_update := !x.auto_update } ∧ x.repo = r := by
  intro l r
  induction l with
  | nil => intro t rest h; simp [toggleFirst] at h
  | cons s tl ih =>
    intro t rest h
    by_cases hs : s.repo = r
    · simp only [toggleFirst, hs, if_pos, Option.some.injEq, Prod.mk.injEq] at h
      exact ⟨[], s, tl, by simp, by simp [h.2.symm], by rw [← h.1, hs], hs⟩
    · simp only [toggleFirst, hs, if_neg, if_false] at h
      cases hm : toggleFirst tl r with
      | none => rw [hm] at h; cases h
      | some pr =>
        obtain ⟨t2, rest2⟩ := pr
        rw [hm] at h
        simp only [Option.some.injEq, Prod.mk.injEq] at h
        obtain ⟨A, x, B, h1, h2, h3, h4⟩ := ih t2 rest2 hm
        refine ⟨s :: A, x, B, by rw [List.cons_append, ← h1],
          by rw [← h.2, List.cons_append, ← h2], ?_, h4⟩
        rw [← h.1]; exact h3

/-- Removing one element from a grouped decomposition leaves a grouped
decomposition. -/
theorem remove_decomp (A B T F : List SubRec) (x : SubRec)
    (h : A ++ x :: B = T ++ F)
    (hT : ∀ s ∈ T, s.auto_update = true) (hF : ∀ s ∈ F, s.auto_update = false) :
    ∃ T2 F2, A ++ B = T2 ++ F2 ∧ (∀ s ∈ T2, s.auto_update = true) ∧
      (∀ s ∈ F2, s.auto_update = false) := by
  rcases List.append_eq_append_iff.mp h with ⟨a2, hTa, hxa⟩ | ⟨c2, hAc, hFc⟩
  · cases a2 with
    | nil =>
      refine ⟨A, B, rfl, ?_, ?_⟩
      · intro s hs
        exact hT s (by rw [hTa]; simpa using hs)
      · intro s hs
        apply hF
        have hxF : F = x :: B := by simpa using hxa.symm
        rw [hxF]
        exact List.mem_cons_of_mem x hs
    | cons y a2' =>
      have hx : x = y ∧ B = a2' ++ F := by
        rw [List.cons_append] at hxa
        exact ⟨(List.cons.injEq _ _ _ _).mp hxa |>.1,
               (List.cons.injEq _ _ _ _).mp hxa |>.2⟩
      refine ⟨A ++ a2', F, by rw [hx.2, List.append_assoc], ?_, hF⟩
      intro s hs
      apply hT
      rw [hTa]
      rcases List.mem_append.mp hs with h' | h'
      · exact List.mem_append.mpr (Or.inl h')
      · exact List.mem_append.mpr (Or.inr (List.mem_cons_of_mem y h'))
  · refine ⟨T, c2 ++ B, by rw [hAc, List.append_assoc], hT, ?_⟩
    intro s hs
    apply hF
    rw [hFc]
    rcases List.mem_append.mp hs with h' | h'
    · exact List.mem_append.mpr (Or.inl h')
    · exact List.mem_append.mpr (Or.inr (List.mem_cons_of_mem x h'))

/-- C8: starting from a grouped registry list, toggling the auto-sync flag of
any one record yields (and is what gets persisted) a list that is still
grouped — flagged records first — and the non-toggled records keep their
relative order: filtering the toggled identity out of the new list gives
exactly the same sequence as filtering it out of the old one (which in
particular preserves the relative order inside each group). -/
theorem claim_C8 (subs : List SubRec) (r : String) (hg : grouped subs = true) :
    grouped (toggle_auto_update subs r) = true ∧
    (toggle_auto_update subs r).filter (fun s => s.repo != r) =
      subs.filter (fun s => s.repo != r) := by
  rcases htf : toggleFirst subs r with _ | ⟨t, rest⟩
  · simp [toggle_auto_update, htf, hg]
  · obtain ⟨A, x, B, hl, hrest, ht, hxr⟩ := toggleFirst_eq_some subs r t rest htf
    obtain ⟨T, F, hTF, hT, hF⟩ := grouped_decomp subs hg
    obtain ⟨T2, F2, hAB, hT2, hF2⟩ :=
      remove_decomp A B T F x (by rw [← hl, ← hTF]) hT hF
    have htr : t.repo = r := by rw [ht]; exact hxr
    have hqt : (t.repo != r) = false := by simp [htr]
    have hqx : (x.repo != r) = false := by simp [hxr]
    have hfilterRHS : subs.filter (fun s => s.repo != r) =
        (A ++ B).filter (fun s => s.repo != r) := by
      rw [hl]
      simp [List.filter_append, List.filter_cons, hqx]
    by_cases hauto : t.auto_update
    · have hres : toggle_auto_update subs r = T2 ++ t :: F2 := by
        simp only [toggle_auto_update, htf, hauto, if_true]
        rw [hrest, hAB, insertPos_append T2 F2 hT2 hF2, pyInsert,
          List.take_left, List.drop_left]
      constructor
      · rw [hres]
        have hsplit : T2 ++ t :: F2 = (T2 ++ [t]) ++ F2 := by simp
        rw [hsplit]
        refine grouped_of_append (T2 ++ [t]) F2 ?_ hF2
        intro s hs
        rcases List.mem_append.mp hs with h' | h'
        · exact hT2 s h'
        · rw [List.mem_singleton.mp h']; exact hauto
      · rw [hres, hfilterRHS, hAB]
        simp [List.filter_append, List.filter_cons, hqt]
    · have hauto' : t.auto_update = false := by simpa using hauto
      have hres : toggle_auto_update subs r = (A ++ B) ++ [t] := by
        simp only [toggle_auto_update, htf, hauto', Bool.false_eq_true, if_false]
        rw [hrest]
      constructor
      · rw [hres, hAB, List.append_assoc]
        refine grouped_of_append T2 (F2 ++ [t]) hT2 ?_
        intro s hs
        rcases List.mem_append.mp hs with h' | h'
        · exact hF2 s h'
        · rw [List.mem_singleton.mp h']; exact hauto'
      · rw [hres, hfilterRHS]
        simp [List.filter_append, List.filter_cons, hqt]

/-- Witness for C8 at a concrete grouped registry. -/
theorem claim_C8_witness :
    grouped (toggle_auto_update
      [{ repo := "a/a", auto_update := true },
       { repo := "b/b", auto_update := false }] "b/b") = true ∧
    (toggle_auto_update
      [{ repo := "a/a", auto_update := true },
       { repo := "b/b", auto_update := false }] "b/b").filter
        (fun s => s.repo != "b/b") =
      ([{ repo := "a/a", auto_update := true },
        { repo := "b/b", auto_update := false }] : List SubRec).filter
        (fun s => s.repo != "b/b") :=
  claim_C8
    [{ repo := "a/a", auto_update := true },
     { repo := "b/b", auto_update := false }] "b/b" (by decide)
